import Mathlib

/-!
Verification of the TokenGovernor governance engine.

This file is a shallow embedding of the repository code in
`src/tokengovernor`: the data model (`core/models.py`, `core/config.py`),
the rate limiter (`inspector/rate_limiter.py`), the checkpoint manager
(`inspector/checkpoint_manager.py`), the usage estimator
(`inspector/ccusage_integration.py`) and the governance engine
(`inspector/governor.py`).

Modelling conventions:
- Python wall-clock instants (`time.time()`, seconds as floats) are
  modelled as rationals, and Python float arithmetic on small
  human-scale constants (thresholds 0.7/0.8/0.9/0.95, multipliers
  1.3/1.5/1.8/3.0) as exact rational arithmetic; `int(x)` on a
  non-negative float is modelled as the rational floor.
- The SQL repositories (`registry/repository.py`) are, per the spec,
  external collaborators contracted through the narrow interfaces of
  spec section 6 (project store get, task store get/update, usage ledger
  append/sum). They are modelled as pure operations on an explicit
  engine state `GovState`; a collaborator call that the Python code can
  only observe as an exception is modelled by an explicit Boolean or
  Option oracle argument.
- Python `try/except` blocks that return a structured error dictionary
  are modelled as total functions returning an `error` constructor;
  blocks that re-raise are modelled with `Except`.
- Identifier-bearing fields keep the source field names in camelCase.
  Timestamp bookkeeping fields (`created_at`, `completed_at`, ...) and
  free-form metadata bags carry no claim-relevant logic and are omitted
  from the record types.
-/

namespace TokenGovernor

/-- Project priority tiers (`core/models.py`, `PriorityTier`). -/
inductive PriorityTier
  | tier1
  | tier2
deriving DecidableEq, Repr

/-- Task complexity levels (`core/models.py`, `TaskComplexity`).
The Python enum is a `str` enum with values "simple", "complex",
"very_complex"; `governor.py` compares `task.complexity` against those
string values, which succeeds because of the `str` mixin. -/
inductive TaskComplexity
  | simple
  | complex
  | veryComplex
deriving DecidableEq, Repr

/-- Checkpoint states (`core/models.py`, `CheckpointState`): values
"none", "requested", "saved". -/
inductive CheckpointState
  | none
  | requested
  | saved
deriving DecidableEq, Repr

/-- Task execution status (`core/models.py`, `TaskStatus`). -/
inductive TaskStatus
  | pending
  | inProgress
  | paused
  | completed
  | failed
deriving DecidableEq, Repr

/-- Alert severity (`governor.py`, `AlertLevel`). -/
inductive AlertLevel
  | info
  | warning
  | critical
deriving DecidableEq, Repr

/-- Project record (`core/models.py`, `Project`). `token_budget` is
declared `Field(gt=0)` in pydantic; positivity is carried as a
hypothesis where a theorem needs it. -/
structure Project where
  projectId : String
  name : String
  tokenBudget : ℕ
  priorityTier : PriorityTier
  owner : String
deriving DecidableEq, Repr

/-- Task record (`core/models.py`, `Task`). `actual_tokens` is declared
`Field(default=0, ge=0)` and is modelled as a natural number. -/
structure Task where
  taskId : String
  parentAgentId : String
  projectId : String
  name : String
  complexity : TaskComplexity
  estimatedTokens : ℕ
  actualTokens : ℕ
  subtaskIds : List String
  checkpointState : CheckpointState
  checkpointUri : Option String
  status : TaskStatus
deriving DecidableEq, Repr

/-- Usage-ledger entry (`core/models.py`, `TokenUsage`): the fields the
engine reads back (summation is over `tokens_used` grouped by
`project_id`); the metadata bag is not consulted by any engine logic. -/
structure UsageRecord where
  projectId : String
  taskId : Option String
  tokensUsed : ℕ
  operationType : String
deriving DecidableEq, Repr

/-- Budget alert as produced by `GovernorAgent._check_budget_alerts`. -/
structure Alert where
  level : AlertLevel
  message : String
  recommendation : String
deriving DecidableEq, Repr

/-- Checkpoint record (`core/models.py`, `Checkpoint`): the fields
`create_checkpoint` fills in (`checkpoint_data` is summarised by the
completion percentage it embeds, the only computed component). -/
structure Checkpoint where
  taskId : String
  checkpointUri : String
  completionPercentage : ℚ
  sizeBytes : ℕ
deriving DecidableEq, Repr

/-- Default warning alert threshold 0.8 (`core/config.py`,
`TokenConfig.alert_thresholds`); `GovernorAgent.__init__` copies it
into `self.warning_threshold`. -/
def defaultWarningThreshold : ℚ := 8 / 10

/-- Default critical alert threshold 0.95 (`core/config.py`,
`TokenConfig.alert_thresholds`); copied into
`GovernorAgent.critical_threshold`. -/
def defaultCriticalThreshold : ℚ := 95 / 100

/-- Engine-visible state: the stores of the collaborators in spec
section 6 plus the state owned by the engine and its rate limiter
(`RateLimiter.call_history`, `RateLimiter.rate_limits`,
`RateLimiter.default_rate_limit`, `GovernorAgent.active_projects`,
`GovernorAgent.paused_tasks`, and the two alert thresholds read from
configuration). Rate histories and rate-limit overrides are
association lists keyed by project id, first match winning, mirroring
the Python dicts. -/
structure GovState where
  projects : List Project
  tasks : List Task
  usage : List UsageRecord
  rateHistories : List (String × List ℚ)
  rateLimits : List (String × ℕ)
  defaultRateLimit : ℕ
  activeProjects : List String
  pausedTasks : List String
  warningThreshold : ℚ
  criticalThreshold : ℚ
deriving DecidableEq, Repr

/-- Project store lookup (spec section 6 `get`, backed by
`ProjectRepository.get_by_id`). -/
def getProject (st : GovState) (pid : String) : Option Project :=
  st.projects.find? (fun p => p.projectId == pid)

/-- Task store lookup (spec section 6 `get`, backed by
`TaskRepository.get_by_id`). -/
def getTask (st : GovState) (tid : String) : Option Task :=
  st.tasks.find? (fun t => t.taskId == tid)

/-- Task store update (spec section 6 `update`, backed by
`TaskRepository.update`, an UPDATE keyed on `task_id`: rows with the
same task id are replaced, everything else is untouched). -/
def updateTask (st : GovState) (t : Task) : GovState :=
  { st with tasks := st.tasks.map (fun u => if u.taskId == t.taskId then t else u) }

/-- Usage-ledger summation (`TokenUsageRepository.get_project_usage`:
`SELECT COALESCE(SUM(tokens_used), 0) ... WHERE project_id = ?`). -/
def sumProjectUsage (st : GovState) (pid : String) : ℕ :=
  ((st.usage.filter (fun r => r.projectId == pid)).map UsageRecord.tokensUsed).sum

/- ### Rate limiter (`inspector/rate_limiter.py`) -/

/-- The eviction loop in `RateLimiter.can_execute`: pop entries from the
front of the history while they are older than `cutoff_time = now - 60`. -/
def evictOld (now : ℚ) (hist : List ℚ) : List ℚ :=
  hist.dropWhile (fun ts => decide (ts < now - 60))

/-- Core of `RateLimiter.can_execute` for one project history: evict,
then admit (appending the current timestamp) exactly when the remaining
count is strictly below the limit; on denial the history keeps only the
eviction. Returns the decision and the updated history. -/
def canExecuteHist (limit : ℕ) (now : ℚ) (hist : List ℚ) : Bool × List ℚ :=
  let h := evictOld now hist
  if h.length < limit then (true, h ++ [now]) else (false, h)

/-- `RateLimiter.get_retry_after` on one project history: 0 on an empty
history, else `int(max(0, 60 - (now - oldest)))`; the argument of
`int` is non-negative, so Python truncation is the floor. -/
def getRetryAfterHist (now : ℚ) (hist : List ℚ) : ℤ :=
  match hist with
  | [] => 0
  | oldest :: _ => ⌊max 0 (60 - (now - oldest))⌋

/-- `self.rate_limits.get(project_id, self.default_rate_limit)`. -/
def effectiveRateLimit (st : GovState) (pid : String) : ℕ :=
  ((st.rateLimits.find? (fun q => q.1 == pid)).map Prod.snd).getD st.defaultRateLimit

/-- `self.call_history[project_id]` (a `defaultdict`, so a missing key
reads as the empty history). -/
def getHistory (st : GovState) (pid : String) : List ℚ :=
  ((st.rateHistories.find? (fun q => q.1 == pid)).map Prod.snd).getD []

/-- Store back a mutated per-project history. -/
def setHistory (st : GovState) (pid : String) (h : List ℚ) : GovState :=
  { st with rateHistories := (pid, h) :: st.rateHistories.filter (fun q => !(q.1 == pid)) }

/-- `RateLimiter.can_execute` at state level. -/
def canExecute (st : GovState) (now : ℚ) (pid : String) : Bool × GovState :=
  let r := canExecuteHist (effectiveRateLimit st pid) now (getHistory st pid)
  (r.1, setHistory st pid r.2)

/-- `RateLimiter.get_retry_after` at state level. -/
def getRetryAfter (st : GovState) (now : ℚ) (pid : String) : ℤ :=
  getRetryAfterHist now (getHistory st pid)

/-- A sequence of `can_execute` calls for one project replayed through
`canExecuteHist` from a starting history: each call's wall-clock time
paired with its admission decision. -/
def runCalls (limit : ℕ) : List ℚ → List ℚ → List (ℚ × Bool)
  | _, [] => []
  | hist, c :: rest =>
      let r := canExecuteHist limit c hist
      (c, r.1) :: runCalls limit r.2 rest

/-- The call was admitted and its time lies in the closed 60-second
window starting at `t`. -/
def inWindow (t : ℚ) (p : ℚ × Bool) : Bool :=
  p.2 && decide (t ≤ p.1) && decide (p.1 ≤ t + 60)

/-- Number of admissions granted within the window starting at `t`. -/
def admittedInWindow (t : ℚ) (res : List (ℚ × Bool)) : ℕ :=
  (res.filter (inWindow t)).length

/-- Number of history timestamps at or after `t`. -/
def countGe (t : ℚ) (l : List ℚ) : ℕ :=
  (l.filter (fun x => decide (t ≤ x))).length

/- ### Usage estimator (`inspector/ccusage_integration.py`) -/

/-- One JSONL log entry of `CCUsageTracker`, restricted to the keys the
estimator reads back: `operation`, `phase`, `success`, `actual_tokens`
(with their `entry.get` defaults already applied). -/
structure LogEntry where
  operation : String
  phase : String
  success : Bool
  actualTokens : ℕ
deriving DecidableEq, Repr

/-- Estimation context, restricted to the keys `_get_default_estimate`
and `_adjust_for_context` read: `complexity` (default "simple") and
`file_count` (default 10). -/
structure EstimateContext where
  complexity : Option String
  fileCount : Option ℕ
deriving DecidableEq, Repr

/-- The filter inside `CCUsageTracker.get_usage_estimate`: matching
operation, phase "complete", successful, positive actual tokens. -/
def similarOps (hist : List LogEntry) (op : String) : List LogEntry :=
  hist.filter (fun e =>
    e.operation == op && e.phase == "complete" && e.success && decide (0 < e.actualTokens))

/-- The `defaults` table of `CCUsageTracker._get_default_estimate`
(`defaults.get(operation_type, 500)`). -/
def defaultBase (op : String) : ℕ :=
  if op == "project_creation" then 500
  else if op == "task_registration" then 200
  else if op == "checkpoint_save" then 1000
  else if op == "status_report" then 100
  else if op == "error_handling" then 300
  else if op == "pr_creation" then 800
  else if op == "repo_setup" then 1500
  else 500

/-- `CCUsageTracker._get_default_estimate`: default-table value times 2
for "complex" and times 5 for "very_complex" (integer multiplication in
the source), no file-count adjustment. -/
def getDefaultEstimate (op : String) (ctx : EstimateContext) : ℕ :=
  let base := defaultBase op
  let cplx := ctx.complexity.getD "simple"
  if cplx == "complex" then base * 2
  else if cplx == "very_complex" then base * 5
  else base

/-- `CCUsageTracker._adjust_for_context`: complexity multiplier
(`int(x * 1.5)` for "complex", `int(x * 3.0)` for "very_complex"),
then for `repo_setup`/`pr_creation` a file-count multiplier
(`int(x * 1.8)` above 50 files, `int(x * 1.3)` above 20). The float
truncations are modelled as exact floors of the rational products. -/
def adjustForContext (baseTokens : ℕ) (op : String) (ctx : EstimateContext) : ℕ :=
  let cplx := ctx.complexity.getD "simple"
  let adjusted :=
    if cplx == "complex" then baseTokens * 3 / 2
    else if cplx == "very_complex" then baseTokens * 3
    else baseTokens
  if op == "repo_setup" || op == "pr_creation" then
    let fileCount := ctx.fileCount.getD 10
    if 50 < fileCount then adjusted * 9 / 5
    else if 20 < fileCount then adjusted * 13 / 10
    else adjusted
  else adjusted

/-- `CCUsageTracker.get_usage_estimate` over a given recent-entry
window: integer mean (`total // len`) of matching records adjusted for
context, or the default estimate when no record matches. -/
def getUsageEstimate (hist : List LogEntry) (op : String) (ctx : EstimateContext) : ℕ :=
  let similar := similarOps hist op
  if similar.isEmpty then getDefaultEstimate op ctx
  else
    let total := (similar.map LogEntry.actualTokens).sum
    adjustForContext (total / similar.length) op ctx

/-- The per-operation efficiency computed in
`CCUsageTracker.complete_operation`: `None` unless both counts are
positive, else `estimated/actual` when `actual > estimated` and
`actual/estimated` otherwise. -/
def completeOperationEfficiency (estimated actual : ℕ) : Option ℚ :=
  if 0 < estimated ∧ 0 < actual then
    some (if estimated < actual then (estimated : ℚ) / (actual : ℚ)
          else (actual : ℚ) / (estimated : ℚ))
  else Option.none

/- ### Checkpoint manager (`inspector/checkpoint_manager.py`) -/

/-- Decimal-free rendering of a rational timestamp for embedding into a
checkpoint file name. -/
def ratStr (q : ℚ) : String :=
  toString q.num ++ "/" ++ toString q.den

/-- The checkpoint file path `storage_path / f"[task_id]_[timestamp].json"`
built inside `create_checkpoint` (and, with a `file://` scheme prefix,
by `prepare_checkpoint`). -/
def checkpointFile (task : Task) (now : ℚ) : String :=
  "checkpoints/" ++ task.taskId ++ "_" ++ ratStr now ++ ".json"

/-- `CheckpointManager.prepare_checkpoint`: the checkpoint URI returned
to `track_task_execution`. -/
def prepareCheckpoint (task : Task) (now : ℚ) : String :=
  "file://" ++ checkpointFile task now

/-- The completion percentage serialized into `checkpoint_data`:
`actual/estimated*100` when the estimate is positive, else 0. -/
def completionPercentage (task : Task) : ℚ :=
  if 0 < task.estimatedTokens then
    (task.actualTokens : ℚ) / (task.estimatedTokens : ℚ) * 100
  else 0

/-- `CheckpointManager.create_checkpoint`. The body runs under a
`try/except` returning `None` on any failure. Its fallible effects are
the file write (`open`/`json.dump`), modelled by the `writeOk` oracle,
and the `checkpoint_file.stat()` size read, modelled by the `stat`
oracle (`none` means the call raised). URI preparation and the
serialization of `checkpoint_data` are pure dictionary/string building
and cannot fail before the write. Crucially, the source mutates
`task.checkpoint_state` to "saved" and sets `task.checkpoint_uri`
after the write but before the `stat()` call, so a `stat` failure
returns `None` with the task already mutated. Returns the produced
checkpoint (or `none`) together with the task object as left by the
call. -/
def createCheckpoint (writeOk : Bool) (stat : Option ℕ) (now : ℚ) (task : Task) :
    Option Checkpoint × Task :=
  if writeOk = false then (Option.none, task)
  else
    let fp := checkpointFile task now
    let task2 := { task with checkpointState := CheckpointState.saved,
                             checkpointUri := some fp }
    match stat with
    | Option.none => (Option.none, task2)
    | some size => (some ⟨task.taskId, fp, completionPercentage task, size⟩, task2)

/- ### Governance engine (`inspector/governor.py`) -/

/-- Outcome of `GovernorAgent._check_project_budget`. `notFound` is the
`allowed: False` dictionary that carries only a reason (no
recommendation key); `insufficient` carries the required and available
token counts of the over-budget dictionary. -/
inductive BudgetCheck
  | allowed
  | notFound
  | insufficient (required : ℕ) (available : ℤ)
deriving DecidableEq, Repr

/-- `GovernorAgent._check_project_budget`: fetch the project, compute
`remaining = token_budget - sum(recorded usage)` (a signed quantity in
Python), and deny when the estimate strictly exceeds it. -/
def checkProjectBudget (st : GovState) (pid : String) (estimated : ℕ) : BudgetCheck :=
  match getProject st pid with
  | Option.none => BudgetCheck.notFound
  | some project =>
      let remaining : ℤ := (project.tokenBudget : ℤ) - (sumProjectUsage st pid : ℤ)
      if remaining < (estimated : ℤ) then BudgetCheck.insufficient estimated remaining
      else BudgetCheck.allowed

/-- `GovernorAgent._should_request_checkpoint`: the complexity-dependent
required progress ratio (0.7 for very complex, 0.95 for simple, 0.9
otherwise). -/
def checkpointThreshold (c : TaskComplexity) : ℚ :=
  match c with
  | TaskComplexity.veryComplex => 7 / 10
  | TaskComplexity.simple => 95 / 100
  | TaskComplexity.complex => 9 / 10

/-- `GovernorAgent._should_request_checkpoint`: true exactly when both
token counts are positive and `actual/estimated` has reached the
adaptive threshold. -/
def shouldRequestCheckpoint (task : Task) : Bool :=
  if 0 < task.estimatedTokens ∧ 0 < task.actualTokens then
    decide (checkpointThreshold task.complexity ≤
      (task.actualTokens : ℚ) / (task.estimatedTokens : ℚ))
  else false

/-- Outcome of `GovernorAgent.track_task_execution`, one constructor
per `status` tag of the returned dictionary. -/
inductive TrackResult
  | blocked (reason recommendation : String)
  | rateLimited (reason : String) (retryAfter : ℤ)
  | checkpointRequested (reason : String) (checkpointUri : String)
  | approved (estimatedTokens : ℕ)
  | error (msg : String)
deriving DecidableEq, Repr

/-- `GovernorAgent.track_task_execution`: budget check, then rate
check, then adaptive checkpoint check, each short-circuiting. When the
budget check reports the project missing, the handler builds the
blocked reply by reading `budget_check["recommendation"]`, a key the
not-found dictionary lacks; the resulting `KeyError` is caught by the
surrounding `except` and surfaces as the structured error outcome
modelled here. The checkpoint branch sets `checkpoint_state` to
"requested" unconditionally, whatever the previous state. -/
def trackTaskExecution (st : GovState) (now : ℚ) (task : Task) : TrackResult × GovState :=
  match checkProjectBudget st task.projectId task.estimatedTokens with
  | BudgetCheck.notFound => (TrackResult.error "KeyError: recommendation", st)
  | BudgetCheck.insufficient _ _ =>
      (TrackResult.blocked "Insufficient token budget"
        "Increase budget or optimize token usage", st)
  | BudgetCheck.allowed =>
      let res := canExecute st now task.projectId
      if res.1 = false then
        let st2 := updateTask res.2 { task with status := TaskStatus.paused }
        let st3 := { st2 with pausedTasks := st2.pausedTasks.insert task.taskId }
        (TrackResult.rateLimited "Project rate limit exceeded"
          (getRetryAfter st3 now task.projectId), st3)
      else if shouldRequestCheckpoint task then
        (TrackResult.checkpointRequested "Adaptive threshold reached"
          (prepareCheckpoint task now),
         updateTask res.2 { task with checkpointState := CheckpointState.requested })
      else
        (TrackResult.approved task.estimatedTokens, res.2)

/-- The alert classification of `GovernorAgent._check_budget_alerts`
for a given budget and recorded usage: critical at or above the
critical threshold, else warning at or above the warning threshold,
else nothing; at most one alert is appended. The f-string message
bodies are abbreviated to their fixed prefixes; the recommendation
strings are verbatim. -/
def budgetAlerts (warning critical : ℚ) (budget used : ℕ) : List Alert :=
  let ratio : ℚ := (used : ℚ) / (budget : ℚ)
  if critical ≤ ratio then
    [⟨AlertLevel.critical, "Critical: token budget usage",
      "Immediate action required - pause non-critical tasks"⟩]
  else if warning ≤ ratio then
    [⟨AlertLevel.warning, "Warning: token budget usage",
      "Review token usage and optimize if needed"⟩]
  else []

/-- The critical alert value produced by `_check_budget_alerts`. -/
def criticalAlert : Alert :=
  ⟨AlertLevel.critical, "Critical: token budget usage",
   "Immediate action required - pause non-critical tasks"⟩

/-- The warning alert value produced by `_check_budget_alerts`. -/
def warningAlert : Alert :=
  ⟨AlertLevel.warning, "Warning: token budget usage",
   "Review token usage and optimize if needed"⟩

/-- `GovernorAgent._check_budget_alerts`: empty when the project is
missing, else the threshold classification on `used/budget`. -/
def checkBudgetAlerts (st : GovState) (pid : String) : List Alert :=
  match getProject st pid with
  | Option.none => []
  | some project =>
      budgetAlerts st.warningThreshold st.criticalThreshold
        project.tokenBudget (sumProjectUsage st pid)

/-- Outcome of `GovernorAgent.handle_task_completion`. -/
inductive CompletionResult
  | completed (tokensUsed : ℕ) (efficiency : ℚ) (alerts : List Alert)
  | error (msg : String)
deriving DecidableEq, Repr

/-- The `status` tag of a completion outcome. -/
def CompletionResult.statusTag : CompletionResult → String
  | CompletionResult.completed _ _ _ => "completed"
  | CompletionResult.error _ => "error"

/-- The reported efficiency of a completion outcome, when present. -/
def CompletionResult.efficiencyOf : CompletionResult → Option ℚ
  | CompletionResult.completed _ e _ => some e
  | CompletionResult.error _ => Option.none

/-- `GovernorAgent.handle_task_completion`: look the task up (a missing
task raises `ValueError`, caught by the handler and returned as the
structured error outcome), set its actual tokens, mark it COMPLETED,
and persist through the task store. The method then calls
`self.token_repo.create(...)` passing a plain dict (governor.py line
180), but `TokenUsageRepository.create` (repository.py lines 246-265)
reads `usage.usage_id`, `usage.project_id`, ... as attributes of a
`TokenUsage` model - as its only other caller, the tokens API route,
supplies - so the call raises `AttributeError` unconditionally, before
any ledger write. The surrounding `except` turns this into the
structured error outcome. Consequently the function never appends a
usage record, never evaluates budget alerts, and never reaches the
"completed" return carrying the efficiency: the task update is the
only surviving effect. -/
def handleTaskCompletion (st : GovState) (taskId : String) (actualTokens : ℕ) :
    CompletionResult × GovState :=
  match getTask st taskId with
  | Option.none => (CompletionResult.error ("Task " ++ taskId ++ " not found"), st)
  | some task =>
      let st1 := updateTask st
        { task with actualTokens := actualTokens, status := TaskStatus.completed }
      (CompletionResult.error
        "AttributeError: dict object has no attribute usage_id", st1)

/-- The efficiency expression of the unreachable "completed" reply in
`handle_task_completion` (governor.py line 200):
`estimated/actual if actual > 0 else 1.0`. The enclosing return is
never executed because the usage-record append on line 180 raises
first; this definition captures the expression itself. -/
def handleCompletionEfficiency (estimatedTokens actualTokens : ℕ) : ℚ :=
  if 0 < actualTokens then (estimatedTokens : ℚ) / (actualTokens : ℚ) else 1

/-- Successful payload of `GovernorAgent.register_project`. -/
structure RegisterOutcome where
  status : String
  projectId : String
  tokenBudget : ℕ
deriving DecidableEq, Repr

/-- `GovernorAgent.register_project`: tracks the registration, creates
the project through the store collaborator and marks it active. The
store create is the fallible step, modelled by the `createOk` oracle.
Unlike the other boundary handlers, the `except` clause of this method
logs, records a failed tracking operation and then re-raises
(`raise`), so the exception propagates to the caller; this is modelled
by `Except.error`. -/
def registerProject (st : GovState) (createOk : Bool) (project : Project) :
    Except String (RegisterOutcome × GovState) :=
  if createOk then
    Except.ok (⟨"registered", project.projectId, project.tokenBudget⟩,
      { st with projects := st.projects ++ [project],
                activeProjects := st.activeProjects.insert project.projectId })
  else Except.error "Failed to register project"

/-- Project-status payload of `GovernorAgent.get_project_status`,
restricted to the budget block (the task statistics and efficiency
blocks are pass-throughs of collaborator data). `remaining` is
`max(0, budget - used)` as in the source. -/
structure ProjectStatusInfo where
  projectId : String
  usedTokens : ℕ
  totalBudget : ℕ
  remaining : ℕ
  alertLevel : AlertLevel
deriving DecidableEq, Repr

/-- Outcome of `GovernorAgent.get_project_status`. -/
inductive StatusResult
  | ok (info : ProjectStatusInfo)
  | error (msg : String)
deriving DecidableEq, Repr

/-- `GovernorAgent.get_project_status`: a missing project raises
`ValueError`, caught and returned as the structured error outcome;
otherwise the usage percentage is classified against the thresholds
scaled by 100. -/
def getProjectStatus (st : GovState) (pid : String) : StatusResult :=
  match getProject st pid with
  | Option.none => StatusResult.error ("Project " ++ pid ++ " not found")
  | some project =>
      let used := sumProjectUsage st pid
      let pct : ℚ := (used : ℚ) / (project.tokenBudget : ℚ) * 100
      let level :=
        if st.criticalThreshold * 100 ≤ pct then AlertLevel.critical
        else if st.warningThreshold * 100 ≤ pct then AlertLevel.warning
        else AlertLevel.info
      StatusResult.ok ⟨pid, used, project.tokenBudget,
        project.tokenBudget - used, level⟩

/-- A project with a 1000-token budget. -/
def exProject : Project :=
  { projectId := "p", name := "proj", tokenBudget := 1000,
    priorityTier := PriorityTier.tier1, owner := "owner" }

/-- An over-budget submission: 200 tokens estimated against a remaining
budget of 1000 - 900 = 100. -/
def exOverTask : Task :=
  { taskId := "t1", parentAgentId := "a", projectId := "p", name := "big",
    complexity := TaskComplexity.complex, estimatedTokens := 200, actualTokens := 0,
    subtaskIds := [], checkpointState := CheckpointState.none,
    checkpointUri := Option.none, status := TaskStatus.pending }

/-- State for the over-budget scenario: 900 of the 1000 tokens already
recorded against project "p". -/
def exOverState : GovState :=
  { projects := [exProject], tasks := [exOverTask],
    usage := [⟨"p", Option.none, 900, "task_completion"⟩],
    rateHistories := [], rateLimits := [], defaultRateLimit := 5,
    activeProjects := ["p"], pausedTasks := [],
    warningThreshold := defaultWarningThreshold,
    criticalThreshold := defaultCriticalThreshold }

/-- A very-complex task at progress ratio 0.71. -/
def vcTask71 : Task :=
  { taskId := "v", parentAgentId := "a", projectId := "p", name := "vc",
    complexity := TaskComplexity.veryComplex, estimatedTokens := 100, actualTokens := 71,
    subtaskIds := [], checkpointState := CheckpointState.none,
    checkpointUri := Option.none, status := TaskStatus.inProgress }

/-- A simple task at progress ratio 0.71. -/
def simpleTask71 : Task :=
  { vcTask71 with taskId := "s", complexity := TaskComplexity.simple }

/-- A task with a zero token estimate. -/
def zeroEstTask : Task :=
  { vcTask71 with taskId := "z", estimatedTokens := 0 }

/-- A task estimated at 1000 tokens, still pending completion. -/
def exEstTask : Task :=
  { taskId := "e", parentAgentId := "a", projectId := "p", name := "est",
    complexity := TaskComplexity.complex, estimatedTokens := 1000, actualTokens := 0,
    subtaskIds := [], checkpointState := CheckpointState.none,
    checkpointUri := Option.none, status := TaskStatus.inProgress }

/-- State holding `exEstTask` for the completion scenarios. -/
def exEstState : GovState :=
  { projects := [exProject], tasks := [exEstTask], usage := [],
    rateHistories := [], rateLimits := [], defaultRateLimit := 5,
    activeProjects := ["p"], pausedTasks := [],
    warningThreshold := defaultWarningThreshold,
    criticalThreshold := defaultCriticalThreshold }

/-- A task that has not been checkpointed yet. -/
def exFreshTask : Task :=
  { taskId := "f", parentAgentId := "a", projectId := "p", name := "fresh",
    complexity := TaskComplexity.complex, estimatedTokens := 100, actualTokens := 40,
    subtaskIds := [], checkpointState := CheckpointState.none,
    checkpointUri := Option.none, status := TaskStatus.inProgress }

/-- The empty engine state. -/
def emptyState : GovState :=
  { projects := [], tasks := [], usage := [], rateHistories := [], rateLimits := [],
    defaultRateLimit := 5, activeProjects := [], pausedTasks := [],
    warningThreshold := defaultWarningThreshold,
    criticalThreshold := defaultCriticalThreshold }

/-- A successful completed log entry of 200 actual tokens for the
"task_registration" operation. -/
def exLogEntry : LogEntry :=
  { operation := "task_registration", phase := "complete", success := true,
    actualTokens := 200 }

/-- A context asking for "complex" work, file count unspecified. -/
def complexCtx : EstimateContext :=
  { complexity := some "complex", fileCount := Option.none }

/-- A successful completed log entry of 200 actual tokens for the
repository-scale "repo_setup" operation. -/
def repoLogEntry : LogEntry :=
  { operation := "repo_setup", phase := "complete", success := true,
    actualTokens := 200 }

/-- A context with default complexity and 60 files. -/
def repoCtx : EstimateContext :=
  { complexity := Option.none, fileCount := some 60 }

/- ### General lemmas about the store operations -/

/-- A successful task lookup pins the task id of the result. -/
theorem getTask_taskId {st : GovState} {tid : String} {task : Task}
    (h : getTask st tid = some task) : task.taskId = tid := by
  have hp := List.find?_some h
  simpa using hp

/-- Updating a task whose id matches a previously successful lookup
makes the lookup return the updated task. -/
theorem find?_map_update (tid : String) (t : Task) (ht : t.taskId = tid) :
    ∀ (l : List Task) (task : Task),
      l.find? (fun u => u.taskId == tid) = some task →
      (l.map (fun u => if u.taskId == t.taskId then t else u)).find?
        (fun u => u.taskId == tid) = some t := by
  intro l
  induction l with
  | nil => intro task h; simp at h
  | cons u rest ih =>
      intro task h
      by_cases hu : u.taskId = tid
      · simp [List.find?, hu, ht]
      · have hne : ¬((u.taskId == tid) = true) := by simpa using hu
        have hne2 : (u.taskId == t.taskId) = false := by
          rw [ht]; simpa using hu
        rw [List.find?_cons_of_neg (p := fun v : Task => v.taskId == tid) _ hne] at h
        simp only [List.map_cons, hne2, Bool.false_eq_true, if_false]
        rw [List.find?_cons_of_neg (p := fun v : Task => v.taskId == tid) _ hne]
        exact ih task h

/-- `getTask` after `updateTask` with a matching id returns the update. -/
theorem getTask_updateTask {st : GovState} {tid : String} {task : Task} (t : Task)
    (h : getTask st tid = some task) (ht : t.taskId = tid) :
    getTask (updateTask st t) tid = some t :=
  find?_map_update tid t ht st.tasks task h

/- ### Claim C4: budget alert classification -/

/-- Claim C4: with the default thresholds (warning 0.80, critical 0.95)
the alert evaluation classifies by the usage ratio used/budget: at or
above critical it emits exactly one CRITICAL alert and no WARNING,
else at or above warning exactly one WARNING alert, else nothing; in
particular ratio 0.81 yields WARNING only and ratio 0.96 yields
CRITICAL only; and the per-project evaluation applies exactly this
classification to the project budget and its recorded usage sum. -/
theorem c4_budget_alert_levels :
    (∀ budget used : ℕ, 0 < budget →
       ((defaultCriticalThreshold ≤ (used : ℚ) / (budget : ℚ) →
           budgetAlerts defaultWarningThreshold defaultCriticalThreshold budget used
             = [criticalAlert])
        ∧ ((used : ℚ) / (budget : ℚ) < defaultCriticalThreshold →
           defaultWarningThreshold ≤ (used : ℚ) / (budget : ℚ) →
           budgetAlerts defaultWarningThreshold defaultCriticalThreshold budget used
             = [warningAlert])
        ∧ ((used : ℚ) / (budget : ℚ) < defaultWarningThreshold →
           budgetAlerts defaultWarningThreshold defaultCriticalThreshold budget used
             = [])))
    ∧ budgetAlerts defaultWarningThreshold defaultCriticalThreshold 100 81
        = [warningAlert]
    ∧ budgetAlerts defaultWarningThreshold defaultCriticalThreshold 100 96
        = [criticalAlert]
    ∧ (∀ (st : GovState) (pid : String) (p : Project), getProject st pid = some p →
        checkBudgetAlerts st pid =
          budgetAlerts st.warningThreshold st.criticalThreshold p.tokenBudget
            (sumProjectUsage st pid)) := by
  refine ⟨?_, ?_, ?_, ?_⟩
  · intro budget used _
    refine ⟨?_, ?_, ?_⟩
    · intro hc
      simp only [budgetAlerts, criticalAlert]
      rw [if_pos hc]
    · intro hc hw
      simp only [budgetAlerts, warningAlert]
      rw [if_neg (not_le.mpr hc), if_pos hw]
    · intro hw
      have hc : (used : ℚ) / (budget : ℚ) < defaultCriticalThreshold := by
        refine lt_of_lt_of_le hw ?_
        norm_num [defaultWarningThreshold, defaultCriticalThreshold]
      simp only [budgetAlerts]
      rw [if_neg (not_le.mpr hc), if_neg (not_le.mpr hw)]
  · norm_num [budgetAlerts, warningAlert, defaultWarningThreshold, defaultCriticalThreshold]
  · norm_num [budgetAlerts, criticalAlert, defaultWarningThreshold, defaultCriticalThreshold]
  · intro st pid p hp
    simp only [checkBudgetAlerts, hp]

/-- Witness for C4 at a concrete ratio of 0.96. -/
theorem c4_budget_alert_levels_witness :
    budgetAlerts defaultWarningThreshold defaultCriticalThreshold 100 96
      = [criticalAlert] :=
  (c4_budget_alert_levels.1 100 96 (by norm_num)).1
    (by norm_num [defaultCriticalThreshold])

/- ### Claim C5: adaptive checkpoint threshold -/

/-- Claim C5: a checkpoint is requested exactly when both token counts
are positive and the progress ratio actual/estimated has reached the
complexity-dependent threshold (0.70 very complex, 0.95 simple, 0.90
otherwise); zero estimated or zero actual tokens never trigger; a
very-complex task at ratio 0.71 triggers while a simple task at the
same ratio does not. -/
theorem c5_adaptive_checkpoint_threshold :
    (∀ task : Task, shouldRequestCheckpoint task = true ↔
       (0 < task.estimatedTokens ∧ 0 < task.actualTokens ∧
        checkpointThreshold task.complexity ≤
          (task.actualTokens : ℚ) / (task.estimatedTokens : ℚ)))
    ∧ checkpointThreshold TaskComplexity.veryComplex = 7 / 10
    ∧ checkpointThreshold TaskComplexity.simple = 95 / 100
    ∧ checkpointThreshold TaskComplexity.complex = 9 / 10
    ∧ (∀ task : Task, task.estimatedTokens = 0 → shouldRequestCheckpoint task = false)
    ∧ (∀ task : Task, task.actualTokens = 0 → shouldRequestCheckpoint task = false)
    ∧ shouldRequestCheckpoint vcTask71 = true
    ∧ shouldRequestCheckpoint simpleTask71 = false := by
  have hiff : ∀ task : Task, shouldRequestCheckpoint task = true ↔
      (0 < task.estimatedTokens ∧ 0 < task.actualTokens ∧
       checkpointThreshold task.complexity ≤
         (task.actualTokens : ℚ) / (task.estimatedTokens : ℚ)) := by
    intro task
    unfold shouldRequestCheckpoint
    by_cases h : 0 < task.estimatedTokens ∧ 0 < task.actualTokens
    · rw [if_pos h]
      simp [h.1, h.2, and_assoc]
    · rw [if_neg h]
      simp only [Bool.false_eq_true, false_iff]
      intro hc
      exact h ⟨hc.1, hc.2.1⟩
  refine ⟨hiff, rfl, rfl, rfl, ?_, ?_, ?_, ?_⟩
  · intro task h0
    unfold shouldRequestCheckpoint
    rw [if_neg]
    intro hc
    rw [h0] at hc
    exact absurd hc.1 (lt_irrefl 0)
  · intro task h0
    unfold shouldRequestCheckpoint
    rw [if_neg]
    intro hc
    rw [h0] at hc
    exact absurd hc.2 (lt_irrefl 0)
  · rw [hiff]
    refine ⟨by norm_num [vcTask71], by norm_num [vcTask71], ?_⟩
    norm_num [vcTask71, checkpointThreshold]
  · rw [Bool.eq_false_iff]
    intro hc
    rw [hiff] at hc
    have := hc.2.2
    norm_num [simpleTask71, vcTask71, checkpointThreshold] at this

/-- Witness for C5: a zero-estimate task never triggers the adaptive
checkpoint path. -/
theorem c5_adaptive_checkpoint_threshold_witness :
    shouldRequestCheckpoint zeroEstTask = false :=
  c5_adaptive_checkpoint_threshold.2.2.2.2.1 zeroEstTask rfl

/- ### Claim C6: the two efficiency formulas -/

/-- Claim C6 (code bug): the estimator half holds - the per-operation
efficiency of `complete_operation` equals min/max, is symmetric, never
exceeds 1, and evaluates to 0.5 on (1000, 500) - and the engine-side
expression written at governor.py line 200 is estimated/actual, 2.0 on
the same pair; but `handle_task_completion` never reports it: the
plain dict passed to the usage-ledger create raises AttributeError
before the completed return, so on a stored task with estimate 1000
completed with actual 500 the call yields the structured error outcome
carrying no efficiency at all. -/
theorem c6_efficiency_divergence :
    (∀ e a : ℕ, completeOperationEfficiency e a =
        if 0 < e ∧ 0 < a then
          some (((min e a : ℕ) : ℚ) / ((max e a : ℕ) : ℚ))
        else Option.none)
    ∧ (∀ e a : ℕ, completeOperationEfficiency e a = completeOperationEfficiency a e)
    ∧ (∀ e a : ℕ, (completeOperationEfficiency e a).getD 0 ≤ 1)
    ∧ completeOperationEfficiency 1000 500 = some (1 / 2)
    ∧ handleCompletionEfficiency 1000 500 = 2
    ∧ ((handleTaskCompletion exEstState "e" 500).1).statusTag = "error"
    ∧ ((handleTaskCompletion exEstState "e" 500).1).efficiencyOf = Option.none := by
  have hchar : ∀ e a : ℕ, completeOperationEfficiency e a =
      if 0 < e ∧ 0 < a then
        some (((min e a : ℕ) : ℚ) / ((max e a : ℕ) : ℚ))
      else Option.none := by
    intro e a
    unfold completeOperationEfficiency
    by_cases h : 0 < e ∧ 0 < a
    · rw [if_pos h, if_pos h]
      rcases lt_or_le e a with hlt | hle
      · rw [if_pos hlt, min_eq_left (le_of_lt hlt), max_eq_right (le_of_lt hlt)]
      · rw [if_neg (not_lt.mpr hle), min_eq_right hle, max_eq_left hle]
    · rw [if_neg h, if_neg h]
  refine ⟨hchar, ?_, ?_, ?_, ?_, ?_, ?_⟩
  · intro e a
    unfold completeOperationEfficiency
    by_cases h : 0 < e ∧ 0 < a
    · have h2 : 0 < a ∧ 0 < e := ⟨h.2, h.1⟩
      rw [if_pos h, if_pos h2]
      rcases lt_trichotomy e a with hlt | heq | hgt
      · rw [if_pos hlt, if_neg (not_lt.mpr (le_of_lt hlt))]
      · subst heq
        rfl
      · rw [if_neg (not_lt.mpr (le_of_lt hgt)), if_pos hgt]
    · have h2 : ¬(0 < a ∧ 0 < e) := fun hc => h ⟨hc.2, hc.1⟩
      rw [if_neg h, if_neg h2]
  · intro e a
    rw [hchar]
    by_cases h : 0 < e ∧ 0 < a
    · rw [if_pos h]
      simp only [Option.getD_some]
      apply div_le_one_of_le₀
      · exact_mod_cast min_le_max
      · positivity
    · rw [if_neg h]
      norm_num
  · norm_num [completeOperationEfficiency]
  · norm_num [handleCompletionEfficiency]
  · rfl
  · rfl

/- ### Claim C10: completion with zero actual tokens -/

/-- Claim C10 (code bug): the zero guard written at governor.py line
200 does evaluate to 1.0 for zero actual tokens, but the program never
reports it. Completing the stored task with actualTokens = 0 returns
the structured error outcome (the plain dict passed to the
usage-ledger create raises AttributeError), carries no efficiency, and
appends no usage record - the ledger is unchanged - while the task has
nevertheless already been persisted as COMPLETED with actual tokens 0
by the store update that precedes the failing call. -/
theorem c10_zero_actual_divergence :
    handleCompletionEfficiency exEstTask.estimatedTokens 0 = 1
    ∧ ((handleTaskCompletion exEstState "e" 0).1).statusTag = "error"
    ∧ ((handleTaskCompletion exEstState "e" 0).1).efficiencyOf = Option.none
    ∧ (getTask (handleTaskCompletion exEstState "e" 0).2 "e").map Task.status
        = some TaskStatus.completed
    ∧ (getTask (handleTaskCompletion exEstState "e" 0).2 "e").map Task.actualTokens
        = some 0
    ∧ (handleTaskCompletion exEstState "e" 0).2.usage = exEstState.usage := by
  exact ⟨rfl, rfl, rfl, rfl, rfl, rfl⟩

/- ### Claim C7: the two estimation multiplier tables -/

/-- Claim C7: with matching positive-token history the estimate is the
integer mean of the recorded actual tokens times 1.5 for "complex" or
3.0 for "very_complex" and, for the repository-scale operations, times
1.8 above 50 files or 1.3 above 20; without history it is the fixed
per-operation default times 2 for "complex" or 5 for "very_complex"
with no file-count adjustment. The two multiplier tables differ: on
the same base of 200 tokens the default path for "complex" gives 400
while the historical path gives 300. -/
theorem c7_estimate_multipliers :
    (∀ (hist : List LogEntry) (op : String) (ctx : EstimateContext),
        similarOps hist op = [] →
        getUsageEstimate hist op ctx =
          defaultBase op *
            (if ctx.complexity.getD "simple" = "complex" then 2
             else if ctx.complexity.getD "simple" = "very_complex" then 5
             else 1))
    ∧ (∀ (hist : List LogEntry) (op : String) (ctx : EstimateContext),
        similarOps hist op ≠ [] →
        getUsageEstimate hist op ctx =
          (let m := ((similarOps hist op).map LogEntry.actualTokens).sum /
              (similarOps hist op).length
           let adj := if ctx.complexity.getD "simple" = "complex" then m * 3 / 2
             else if ctx.complexity.getD "simple" = "very_complex" then m * 3
             else m
           if op = "repo_setup" ∨ op = "pr_creation" then
             (if 50 < ctx.fileCount.getD 10 then adj * 9 / 5
              else if 20 < ctx.fileCount.getD 10 then adj * 13 / 10
              else adj)
           else adj))
    ∧ getUsageEstimate [] "task_registration" complexCtx = 400
    ∧ getUsageEstimate [exLogEntry] "task_registration" complexCtx = 300
    ∧ getUsageEstimate [repoLogEntry] "repo_setup" repoCtx = 360 := by
  refine ⟨?_, ?_, ?_, ?_, ?_⟩
  · intro hist op ctx hsim
    unfold getUsageEstimate getDefaultEstimate
    rw [hsim]
    simp only [List.isEmpty_nil, if_true]
    by_cases hc : ctx.complexity.getD "simple" = "complex"
    · simp [hc]
    · by_cases hv : ctx.complexity.getD "simple" = "very_complex"
      · simp [hv, hc]
      · simp [hc, hv]
  · intro hist op ctx hsim
    unfold getUsageEstimate adjustForContext
    rw [if_neg (by simp [List.isEmpty_iff, hsim])]
    simp only [beq_iff_eq, Bool.or_eq_true, decide_eq_true_eq]
  · decide
  · decide
  · decide

/-- Witness for C7: the default path for "task_registration" under a
"complex" context. -/
theorem c7_estimate_multipliers_witness :
    getUsageEstimate [] "task_registration" complexCtx =
      defaultBase "task_registration" *
        (if (complexCtx.complexity.getD "simple") = "complex" then 2
         else if (complexCtx.complexity.getD "simple") = "very_complex" then 5
         else 1) :=
  c7_estimate_multipliers.1 [] "task_registration" complexCtx rfl

/- ### Claim C8: checkpoint-failure semantics -/

/-- Counterexample to C8 as stated: a failure in the post-write
`stat()` size read (one of the file I/O steps inside the guarded
block) returns no checkpoint but leaves the task mutated: its
checkpoint_state has advanced from NONE to SAVED and its
checkpoint_uri has been set, so the failed attempt did change the
task state. -/
theorem c8_counterexample :
    (createCheckpoint true Option.none 0 exFreshTask).1 = Option.none
    ∧ exFreshTask.checkpointState = CheckpointState.none
    ∧ (createCheckpoint true Option.none 0 exFreshTask).2.checkpointState
        = CheckpointState.saved
    ∧ (createCheckpoint true Option.none 0 exFreshTask).2.checkpointUri
        ≠ exFreshTask.checkpointUri := by
  refine ⟨rfl, rfl, rfl, ?_⟩
  simp [createCheckpoint, exFreshTask]

/-- Claim C8 (amended): every failure during checkpoint creation makes
`createCheckpoint` return an absence value instead of propagating, and
a failure at or before the file write leaves the task unchanged; but a
run that gets past the write (including one whose subsequent size read
fails) leaves the task with checkpoint_state SAVED and the checkpoint
file path recorded, so only pre-write failures keep the task eligible
for the REQUESTED-state sweep retry. -/
theorem c8_checkpoint_failure_amended :
    (∀ (writeOk : Bool) (stat : Option ℕ) (now : ℚ) (task : Task),
        writeOk = false ∨ stat = Option.none →
        (createCheckpoint writeOk stat now task).1 = Option.none)
    ∧ (∀ (stat : Option ℕ) (now : ℚ) (task : Task),
        (createCheckpoint false stat now task).2 = task)
    ∧ (∀ (stat : Option ℕ) (now : ℚ) (task : Task),
        (createCheckpoint true stat now task).2 =
          { task with checkpointState := CheckpointState.saved,
                      checkpointUri := some (checkpointFile task now) }) := by
  refine ⟨?_, ?_, ?_⟩
  · intro writeOk stat now task hfail
    rcases hfail with hw | hs
    · subst hw
      rfl
    · subst hs
      cases writeOk
      · rfl
      · rfl
  · intro stat now task
    rfl
  · intro stat now task
    cases stat
    · rfl
    · rfl

/-- Witness for C8: a failed write returns no checkpoint. -/
theorem c8_checkpoint_failure_amended_witness :
    (createCheckpoint false (some 10) 0 exFreshTask).1 = Option.none :=
  c8_checkpoint_failure_amended.1 false (some 10) 0 exFreshTask (Or.inl rfl)

/- ### Claim C9: boundary error outcomes -/

/-- Counterexample to C9 as stated: when the project-store create call
inside `register_project` fails, the `except` clause of that method
logs, records a failed tracking operation and then re-raises, so the
boundary call propagates the exception (modelled by `Except.error`)
instead of returning a structured error outcome. -/
theorem c9_counterexample :
    registerProject emptyState false exProject
      = Except.error "Failed to register project" := rfl

/-- Claim C9 (amended): trackTaskExecution, handleTaskCompletion and
getProjectStatus return a structured error outcome on internal
failure, including a project or task that is not found; registerProject
however re-raises the exception from a failed store create instead of
returning a structured outcome. -/
theorem c9_structured_errors_amended :
    (∀ (st : GovState) (tid : String) (act : ℕ), getTask st tid = Option.none →
        (handleTaskCompletion st tid act).1
          = CompletionResult.error ("Task " ++ tid ++ " not found"))
    ∧ (∀ (st : GovState) (pid : String), getProject st pid = Option.none →
        getProjectStatus st pid
          = StatusResult.error ("Project " ++ pid ++ " not found"))
    ∧ (∀ (st : GovState) (now : ℚ) (task : Task),
        getProject st task.projectId = Option.none →
        (trackTaskExecution st now task).1
          = TrackResult.error "KeyError: recommendation")
    ∧ (∀ (st : GovState) (p : Project),
        registerProject st false p = Except.error "Failed to register project") := by
  refine ⟨?_, ?_, ?_, ?_⟩
  · intro st tid act h
    simp only [handleTaskCompletion, h]
  · intro st pid h
    simp only [getProjectStatus, h]
  · intro st now task h
    simp only [trackTaskExecution, checkProjectBudget, h]
  · intro st p
    rfl

/-- Witness for C9 (amended) at a missing task. -/
theorem c9_structured_errors_amended_witness :
    (handleTaskCompletion emptyState "missing" 5).1
      = CompletionResult.error ("Task " ++ "missing" ++ " not found") :=
  c9_structured_errors_amended.1 emptyState "missing" 5 rfl

/- ### Claim C1: admission check ordering -/

/-- Claim C1: the admission checks run in the order budget, rate,
checkpoint, and short-circuit. An over-budget submission (estimate
strictly above budget minus recorded usage) returns BLOCKED with a
recommendation and leaves the whole state - task store, rate
histories, paused set - untouched, so no rate-limit slot is consumed;
a RATE_LIMITED outcome implies the budget check passed; a
CHECKPOINT_REQUESTED or APPROVED outcome implies both the budget check
and the rate check passed. -/
theorem c1_admission_order (st : GovState) (now : ℚ) (task : Task) :
    (∀ p : Project, getProject st task.projectId = some p →
        (p.tokenBudget : ℤ) - (sumProjectUsage st task.projectId : ℤ)
            < (task.estimatedTokens : ℤ) →
        trackTaskExecution st now task =
          (TrackResult.blocked "Insufficient token budget"
            "Increase budget or optimize token usage", st))
    ∧ (∀ (reason : String) (retry : ℤ) (st2 : GovState),
        trackTaskExecution st now task = (TrackResult.rateLimited reason retry, st2) →
        checkProjectBudget st task.projectId task.estimatedTokens = BudgetCheck.allowed)
    ∧ (∀ (reason uri : String) (st2 : GovState),
        trackTaskExecution st now task
            = (TrackResult.checkpointRequested reason uri, st2) →
        checkProjectBudget st task.projectId task.estimatedTokens = BudgetCheck.allowed
        ∧ (canExecute st now task.projectId).1 = true)
    ∧ (∀ (est : ℕ) (st2 : GovState),
        trackTaskExecution st now task = (TrackResult.approved est, st2) →
        checkProjectBudget st task.projectId task.estimatedTokens = BudgetCheck.allowed
        ∧ (canExecute st now task.projectId).1 = true
        ∧ shouldRequestCheckpoint task = false) := by
  refine ⟨?_, ?_, ?_, ?_⟩
  · intro p hp hover
    have hcb : checkProjectBudget st task.projectId task.estimatedTokens
        = BudgetCheck.insufficient task.estimatedTokens
            ((p.tokenBudget : ℤ) - (sumProjectUsage st task.projectId : ℤ)) := by
      unfold checkProjectBudget
      rw [hp]
      show (if (p.tokenBudget : ℤ) - (sumProjectUsage st task.projectId : ℤ)
            < (task.estimatedTokens : ℤ) then
          BudgetCheck.insufficient task.estimatedTokens
            ((p.tokenBudget : ℤ) - (sumProjectUsage st task.projectId : ℤ))
        else BudgetCheck.allowed) = _
      rw [if_pos hover]
    unfold trackTaskExecution
    rw [hcb]
  · intro reason retry st2 htr
    rcases hcb : checkProjectBudget st task.projectId task.estimatedTokens with _ | _ | ⟨a, b⟩
    · rfl
    · unfold trackTaskExecution at htr
      rw [hcb] at htr
      simp at htr
    · unfold trackTaskExecution at htr
      rw [hcb] at htr
      simp at htr
  · intro reason uri st2 htr
    rcases hcb : checkProjectBudget st task.projectId task.estimatedTokens with _ | _ | ⟨a, b⟩
    · refine ⟨rfl, ?_⟩
      unfold trackTaskExecution at htr
      rw [hcb] at htr
      cases hre : (canExecute st now task.projectId).1
      · simp [hre] at htr
      · rfl
    · unfold trackTaskExecution at htr
      rw [hcb] at htr
      simp at htr
    · unfold trackTaskExecution at htr
      rw [hcb] at htr
      simp at htr
  · intro est st2 htr
    rcases hcb : checkProjectBudget st task.projectId task.estimatedTokens with _ | _ | ⟨a, b⟩
    · unfold trackTaskExecution at htr
      rw [hcb] at htr
      refine ⟨rfl, ?_, ?_⟩
      · cases hre : (canExecute st now task.projectId).1
        · simp [hre] at htr
        · rfl
      · cases hsr : shouldRequestCheckpoint task
        · rfl
        · cases hre : (canExecute st now task.projectId).1
          · simp [hre] at htr
          · simp [hre, hsr] at htr
    · unfold trackTaskExecution at htr
      rw [hcb] at htr
      simp at htr
    · unfold trackTaskExecution at htr
      rw [hcb] at htr
      simp at htr

/-- Witness for C1: the concrete over-budget scenario (estimate 200,
remaining 100) is blocked without touching the state. -/
theorem c1_admission_order_witness :
    trackTaskExecution exOverState 0 exOverTask =
      (TrackResult.blocked "Insufficient token budget"
        "Increase budget or optimize token usage", exOverState) :=
  (c1_admission_order exOverState 0 exOverTask).1 exProject (by decide) (by decide)

/- ### Claim C3: checkpoint-state forward motion -/

/-- Unfolding of an admitting `canExecuteHist` call. -/
theorem canExecuteHist_pos {limit : ℕ} {now : ℚ} {hist : List ℚ}
    (h : (evictOld now hist).length < limit) :
    canExecuteHist limit now hist = (true, evictOld now hist ++ [now]) := by
  simp only [canExecuteHist]
  rw [if_pos h]

/-- Unfolding of a denying `canExecuteHist` call. -/
theorem canExecuteHist_neg {limit : ℕ} {now : ℚ} {hist : List ℚ}
    (h : ¬(evictOld now hist).length < limit) :
    canExecuteHist limit now hist = (false, evictOld now hist) := by
  simp only [canExecuteHist]
  rw [if_neg h]

/-- Every replayed decision carries the time of one of the calls. -/
theorem runCalls_fst_mem (limit : ℕ) :
    ∀ (calls hist : List ℚ) (p : ℚ × Bool),
      p ∈ runCalls limit hist calls → p.1 ∈ calls := by
  intro calls
  induction calls with
  | nil =>
      intro hist p h
      simp [runCalls] at h
  | cons c rest ih =>
      intro hist p h
      simp only [runCalls, List.mem_cons] at h
      rcases h with h | h
      · rw [h]
        exact List.mem_cons_self c rest
      · exact List.mem_cons_of_mem c (ih _ p h)

/-- Counting admissions over a cons cell. -/
theorem admittedInWindow_cons (t : ℚ) (p : ℚ × Bool) (res : List (ℚ × Bool)) :
    admittedInWindow t (p :: res) =
      (if inWindow t p = true then 1 else 0) + admittedInWindow t res := by
  unfold admittedInWindow
  rw [List.filter_cons]
  by_cases h : inWindow t p = true
  · rw [if_pos h, if_pos h, List.length_cons]
    omega
  · rw [if_neg h, if_neg h]
    omega

/-- A filter count never exceeds the list length. -/
theorem countGe_le_length (t : ℚ) (l : List ℚ) : countGe t l ≤ l.length :=
  List.length_filter_le _ _

/-- Appending one timestamp adds one to the count exactly when it lies
at or after the window start. -/
theorem countGe_append (t c : ℚ) (l : List ℚ) :
    countGe t (l ++ [c]) = countGe t l + (if t ≤ c then 1 else 0) := by
  unfold countGe
  rw [List.filter_append, List.length_append]
  congr 1
  by_cases h : t ≤ c
  · simp [List.filter, h]
  · simp [List.filter, h]

/-- Eviction at a call inside (or before the end of) the window never
drops a timestamp at or after the window start: evicted entries are
strictly below `c - 60 ≤ t`. -/
theorem countGe_evictOld (t c : ℚ) (hist : List ℚ) (h : c ≤ t + 60) :
    countGe t (evictOld c hist) = countGe t hist := by
  have hsplit : hist.takeWhile (fun ts => decide (ts < c - 60)) ++
      hist.dropWhile (fun ts => decide (ts < c - 60)) = hist :=
    List.takeWhile_append_dropWhile _ _
  have htake : countGe t (hist.takeWhile (fun ts => decide (ts < c - 60))) = 0 := by
    unfold countGe
    rw [List.length_eq_zero, List.filter_eq_nil_iff]
    intro x hx
    have hxp := List.mem_takeWhile_imp hx
    simp only [decide_eq_true_eq] at hxp ⊢
    intro hge
    linarith
  have hsum : countGe t hist =
      countGe t (hist.takeWhile (fun ts => decide (ts < c - 60))) +
      countGe t (hist.dropWhile (fun ts => decide (ts < c - 60))) := by
    conv_lhs => rw [← hsplit]
    unfold countGe
    rw [List.filter_append, List.length_append]
  rw [hsum, htake, Nat.zero_add]
  rfl

/-- Core invariant of the sliding window: replaying monotone call
times from any starting history, the number of admissions granted in
the closed window starting at `t` is bounded by the limit minus the
number of starting timestamps already at or after `t`. -/
theorem admitted_window_bound (limit : ℕ) (t : ℚ) :
    ∀ calls : List ℚ, List.Sorted (fun a b : ℚ => a ≤ b) calls →
      ∀ hist : List ℚ,
        admittedInWindow t (runCalls limit hist calls) ≤ limit - countGe t hist := by
  intro calls
  induction calls with
  | nil =>
      intro _ hist
      simp [runCalls, admittedInWindow]
  | cons c rest ih =>
      intro hsort hist
      obtain ⟨hhead, hrest⟩ := List.sorted_cons.mp hsort
      have hstep : runCalls limit hist (c :: rest) =
          (c, (canExecuteHist limit c hist).1) ::
            runCalls limit (canExecuteHist limit c hist).2 rest := rfl
      by_cases hcw : c ≤ t + 60
      · rw [hstep, admittedInWindow_cons]
        have hev : countGe t (evictOld c hist) = countGe t hist :=
          countGe_evictOld t c hist hcw
        by_cases hlen : (evictOld c hist).length < limit
        · rw [canExecuteHist_pos hlen]
          dsimp only
          have hlt : countGe t hist < limit := by
            have := countGe_le_length t (evictOld c hist)
            omega
          have hbound := ih hrest (evictOld c hist ++ [c])
          rw [countGe_append, hev] at hbound
          by_cases htc : t ≤ c
          · rw [if_pos htc] at hbound
            have hiw : inWindow t (c, true) = true := by
              simp [inWindow, htc, hcw]
            rw [if_pos hiw]
            omega
          · rw [if_neg htc] at hbound
            have hiw : ¬(inWindow t (c, true) = true) := by
              simp [inWindow, htc]
            rw [if_neg hiw]
            omega
        · rw [canExecuteHist_neg hlen]
          dsimp only
          have hiw : ¬(inWindow t (c, false) = true) := by
            simp [inWindow]
          rw [if_neg hiw]
          have hbound := ih hrest (evictOld c hist)
          rw [hev] at hbound
          omega
      · have hzero :
            admittedInWindow t (runCalls limit hist (c :: rest)) = 0 := by
          unfold admittedInWindow
          rw [List.length_eq_zero, List.filter_eq_nil_iff]
          intro p hp
          have hp1 : p.1 ∈ c :: rest := runCalls_fst_mem limit (c :: rest) hist p hp
          have hgt : t + 60 < p.1 := by
            rcases List.mem_cons.mp hp1 with h1 | h1
            · rw [h1]
              exact not_le.mp hcw
            · exact lt_of_lt_of_le (not_le.mp hcw) (hhead p.1 h1)
          simp [inWindow, not_le.mpr hgt]
        rw [hzero]
        exact Nat.zero_le _

/-- Claim C2: for a project limited to L calls per minute, at most L
calls are admitted within any closed rolling 60-second window when the
call times are monotone; each call first evicts entries older than 60
seconds from the front of the history, is admitted (appending its
time) exactly when fewer than L entries remain, and is denied without
appending otherwise; the limit is the per-project override when set
and the process default when not; and retry-after is 0 for an empty
history and floor(max(0, 60 - (now - oldest))), a value in [0, 60],
when the oldest remaining timestamp is at or before now. -/
theorem c2_rate_limit_window :
    (∀ (limit : ℕ) (t : ℚ) (calls : List ℚ),
        List.Sorted (fun a b : ℚ => a ≤ b) calls →
        admittedInWindow t (runCalls limit [] calls) ≤ limit)
    ∧ (∀ (limit : ℕ) (now : ℚ) (hist : List ℚ),
        ((canExecuteHist limit now hist).1 = true ↔ (evictOld now hist).length < limit)
        ∧ ((evictOld now hist).length < limit →
            (canExecuteHist limit now hist).2 = evictOld now hist ++ [now])
        ∧ (limit ≤ (evictOld now hist).length →
            canExecuteHist limit now hist = (false, evictOld now hist)))
    ∧ (∀ (st : GovState) (pid : String) (n : ℕ),
        st.rateLimits.find? (fun q => q.1 == pid) = some (pid, n) →
        effectiveRateLimit st pid = n)
    ∧ (∀ (st : GovState) (pid : String),
        st.rateLimits.find? (fun q => q.1 == pid) = Option.none →
        effectiveRateLimit st pid = st.defaultRateLimit)
    ∧ (∀ now : ℚ, getRetryAfterHist now [] = 0)
    ∧ (∀ (now oldest : ℚ) (rest : List ℚ), oldest ≤ now →
        0 ≤ getRetryAfterHist now (oldest :: rest)
        ∧ getRetryAfterHist now (oldest :: rest) ≤ 60
        ∧ getRetryAfterHist now (oldest :: rest) = ⌊max 0 (60 - (now - oldest))⌋) := by
  refine ⟨?_, ?_, ?_, ?_, ?_, ?_⟩
  · intro limit t calls hsort
    have h := admitted_window_bound limit t calls hsort []
    simpa [countGe] using h
  · intro limit now hist
    refine ⟨?_, ?_, ?_⟩
    · by_cases h : (evictOld now hist).length < limit
      · rw [canExecuteHist_pos h]
        simpa using h
      · rw [canExecuteHist_neg h]
        simpa using h
    · intro h
      rw [canExecuteHist_pos h]
    · intro h
      rw [canExecuteHist_neg (not_lt.mpr h)]
  · intro st pid n h
    unfold effectiveRateLimit
    rw [h]
    rfl
  · intro st pid h
    unfold effectiveRateLimit
    rw [h]
    rfl
  · intro now
    rfl
  · intro now oldest rest hle
    unfold getRetryAfterHist
    refine ⟨?_, ?_, rfl⟩
    · exact Int.floor_nonneg.mpr (le_max_left 0 _)
    · have h1 : (max 0 (60 - (now - oldest)) : ℚ) ≤ 60 := by
        apply max_le
        · norm_num
        · linarith
      calc ⌊(max 0 (60 - (now - oldest)) : ℚ)⌋ ≤ ⌊(60 : ℚ)⌋ := Int.floor_le_floor h1
        _ = 60 := by norm_num

/-- Witness for C2: three monotone calls against a limit of two admit
at most two in the window starting at time 0. -/
theorem c2_rate_limit_window_witness :
    admittedInWindow 0 (runCalls 2 [] [0, 1, 2]) ≤ 2 :=
  c2_rate_limit_window.1 2 0 [0, 1, 2] (by norm_num [List.sorted_cons])

end TokenGovernor
